import Mathlib

/-!
Verification of the Account REST service (`src/service/routes.py`).

The route handlers are embedded from `src/service/routes.py`.  The Account
entity and the persistence interface live in `service/models.py`, which is not
among the sources; those definitions are modelled from the specification
(sections 3 and 4.1) and are marked `Modelled from the spec:` below.  The
store is a list of records together with a counter for the next server-assigned
id (§3: ids are unique and never reused after deletion).
-/

namespace AccountService

/-- The Account entity (§3 of the spec): a persisted record has a
server-assigned integer `id`; a freshly constructed, not yet persisted entity
has none. `date_joined` is kept as its serialized date string. -/
structure Account where
  id : Option Nat
  name : String
  email : String
  address : String
  phone_number : Option String
  date_joined : String
  deriving Repr, DecidableEq

/-- A JSON object body, restricted to the six fields of the flat serialized
representation (§3: unknown input fields are ignored, so they are not
modelled). A field that is absent from the mapping (or JSON null) is `none`. -/
structure Payload where
  id : Option Nat
  name : Option String
  email : Option String
  address : Option String
  phone_number : Option String
  date_joined : Option String
  deriving Repr, DecidableEq

/-- The durable store behind the Persistence Interface: the records in
insertion order and the next id to assign (§3: `id` is unique, server-assigned
and never reused after deletion). -/
structure Store where
  records : List Account
  next_id : Nat
  deriving Repr, DecidableEq

def Store.empty : Store := { records := [], next_id := 1 }

/-- Modelled from the spec: `service/models.py` is not among the sources. §4.1
`find(id)` is a Persistence Interface lookup returning an optional entity
(absent = not found). -/
def Store.find (s : Store) (i : Nat) : Option Account :=
  s.records.find? (fun a => a.id == some i)

/-- Modelled from the spec: §4.1 `all()` produces a sequence of all records;
insertion order is what the reference behavior exhibits. -/
def Store.all (s : Store) : List Account :=
  s.records

/-- Modelled from the spec: §4.1 `serialize()` produces the flat six-field
representation of §3, side-effect-free. -/
def Account.serialize (a : Account) : Payload :=
  { id := a.id, name := some a.name, email := some a.email,
    address := some a.address, phone_number := a.phone_number,
    date_joined := some a.date_joined }

/-- Modelled from the spec: §4.1 `deserialize(payload)` populates `name`,
`email`, `address`, `phone_number` (optional) and `date_joined` (optional,
defaulting to the current date `today`); a missing required key fails with a
validation error identifying the missing attribute. `id` is not populated from
the payload, so a freshly constructed entity keeps `id = none`. -/
def Account.deserialize (today : String) (p : Payload) : Except String Account :=
  match p.name with
  | none => .error "Invalid Account: missing name"
  | some n =>
    match p.email with
    | none => .error "Invalid Account: missing email"
    | some e =>
      match p.address with
      | none => .error "Invalid Account: missing address"
      | some addr =>
        .ok { id := none, name := n, email := e, address := addr,
              phone_number := p.phone_number,
              date_joined := p.date_joined.getD today }

/-- Modelled from the spec: §4.1 `create()` persists a new record and assigns
`id` as part of persistence (§3: server-assigned, unique, never reused). -/
def Account.create (s : Store) (a : Account) : Account × Store :=
  let a2 := { a with id := some s.next_id }
  (a2, { records := s.records ++ [a2], next_id := s.next_id + 1 })

/-- Modelled from the spec: §4.1 `update()` persists changes to the existing
record identified by `id`: the stored record carrying that id is replaced.
When no stored record carries the entity's id — in particular when the id was
never assigned — the durable state is left unchanged, which is the behavior
the repository's own tests observe through the PUT handler (they expect 200,
not a storage failure). -/
def Account.update (s : Store) (a : Account) : Store :=
  { s with records := s.records.map (fun r => if r.id == a.id then a else r) }

/-- Modelled from the spec: §4.1 `delete()` removes the record; no-op-safe if
already absent. -/
def Account.delete (s : Store) (a : Account) : Store :=
  { s with records := s.records.filter (fun r => !(r.id == a.id)) }

/-- An HTTP request as the handlers consume it: the declared Content-Type
header (absent = `none`) and the parsed JSON object body. -/
structure Request where
  content_type : Option String
  body : Payload
  deriving Repr, DecidableEq

/-- A response body: a JSON object, a JSON array, a plain text body (the empty
string for DELETE), or the JSON error shape of §4.3 carrying its message. -/
inductive Body where
  | obj : Payload → Body
  | arr : List Payload → Body
  | text : String → Body
  | err : String → Body
  deriving Repr, DecidableEq

structure Response where
  status : Nat
  body : Body
  location : Option String
  deriving Repr, DecidableEq

/-- From `src/service/routes.py`, `check_content_type`: reads the Content-Type
header and passes exactly when it is truthy (non-empty) and equal to the
expected media type; any other case aborts with 415. Returns `true` when the
check passes. -/
def check_content_type (h : Option String) (media_type : String) : Bool :=
  match h with
  | some content_type => content_type != "" && content_type == media_type
  | none => false

/-- The 415 abort issued by `check_content_type` (error shape of §4.3). -/
def unsupported_media_type (media_type : String) : Response :=
  { status := 415, body := .err ("Content-Type must be " ++ media_type),
    location := none }

/-- The 404 abort used by the read, update and delete handlers. -/
def not_found (i : Nat) : Response :=
  { status := 404, body := .err ("Account id [" ++ toString i ++ "] could not be found"),
    location := none }

/-- Modelled from the spec: §4.3, a deserialization `ValidationError` is
converted to a 400 response carrying the message. -/
def bad_request (msg : String) : Response :=
  { status := 400, body := .err msg, location := none }

/-- From `src/service/routes.py`, `create_accounts`: checks the content type
(415 on failure), deserializes the body into a fresh Account (400 on failure),
persists it, and answers 201 with the serialized entity and the placeholder
`Location` header `/`. -/
def create_accounts (s : Store) (req : Request) (today : String) : Response × Store :=
  if check_content_type req.content_type "application/json" then
    match Account.deserialize today req.body with
    | .error msg => (bad_request msg, s)
    | .ok account =>
      let created := Account.create s account
      let location_url := "/"
      ({ status := 201, body := .obj created.1.serialize,
         location := some location_url }, created.2)
  else
    (unsupported_media_type "application/json", s)

/-- From `src/service/routes.py`, `list_all_accounts`: fetches all records,
answers 200 with an empty array when there are none, otherwise 200 with the
list of serialized records. -/
def list_all_accounts (s : Store) : Response :=
  let result := Store.all s
  if result.isEmpty then
    { status := 200, body := .arr [], location := none }
  else
    { status := 200, body := .arr (result.map Account.serialize), location := none }

/-- From `src/service/routes.py`, `read_an_account`: looks up the path id,
aborts 404 when absent, otherwise answers 200 with the serialized record. -/
def read_an_account (s : Store) (acc_id : Nat) : Response :=
  match s.find acc_id with
  | none => not_found acc_id
  | some result => { status := 200, body := .obj result.serialize, location := none }

/-- From `src/service/routes.py`, `update_account`: looks up the path id and
aborts 404 when absent; otherwise deserializes the body into a fresh Account
(discarding the found record: the path id is never assigned to the entity),
asks persistence to update, and answers 200 with the fresh entity's
serialization. -/
def update_account (s : Store) (account_id : Nat) (req : Request) (today : String) :
    Response × Store :=
  match s.find account_id with
  | none => (not_found account_id, s)
  | some _result =>
    match Account.deserialize today req.body with
    | .error msg => (bad_request msg, s)
    | .ok account =>
      let s2 := Account.update s account
      ({ status := 200, body := .obj account.serialize, location := none }, s2)

/-- From `src/service/routes.py`, `delete_account`: looks up the path id,
aborts 404 when absent, otherwise deletes the record and answers 204 with an
empty body. -/
def delete_account (s : Store) (account_id : Nat) : Response × Store :=
  match s.find account_id with
  | none => (not_found account_id, s)
  | some result =>
    let s2 := Account.delete s result
    ({ status := 204, body := .text "", location := none }, s2)

/-- A creation request the handler accepts: JSON content type and the three
required fields present. -/
def valid_create (r : Request) : Bool :=
  r.content_type == some "application/json" &&
    r.body.name.isSome && r.body.email.isSome && r.body.address.isSome

/-- Posting a sequence of creation requests, threading the store. -/
def post_many (today : String) (reqs : List Request) (s : Store) : Store :=
  reqs.foldl (fun st r => (create_accounts st r today).2) s

/-- Modelled from the spec: the created resource's canonical URL
`/accounts/{id}` (§9 design note: the Location header should point there). -/
def resource_url (i : Nat) : String :=
  "/accounts/" ++ toString i

/-! Concrete fixtures, taken from the concrete scenario of §8 of the spec. -/

/-- A stored account with id 1. -/
def acc_ann : Account :=
  { id := some 1, name := "Ann", email := "a@x.com", address := "1 Main St",
    phone_number := none, date_joined := "2020-01-01" }

/-- A store holding exactly `acc_ann`. -/
def store_ann : Store := { records := [acc_ann], next_id := 2 }

/-- A full valid body carrying new field values (and `id` 1 in the body). -/
def payload_bob : Payload :=
  { id := some 1, name := some "Bob", email := some "b@x.com",
    address := some "2 Oak Ave", phone_number := none,
    date_joined := some "2020-01-01" }

/-- A well-formed JSON write request carrying `payload_bob`. -/
def req_bob : Request := { content_type := some "application/json", body := payload_bob }

/-- The entity `payload_bob` deserializes into: a fresh Account, `id` unset. -/
def fresh_bob : Account :=
  { id := none, name := "Bob", email := "b@x.com", address := "2 Oak Ave",
    phone_number := none, date_joined := "2020-01-01" }

/-- A body missing the required `email` field. -/
def payload_missing_email : Payload :=
  { id := none, name := some "Ann", email := none, address := some "1 Main St",
    phone_number := none, date_joined := none }

/-! Helper lemmas shared by the claim theorems. -/

/-- The content-type check passes exactly on the literal header value. -/
theorem check_json_iff (h : Option String) :
    check_content_type h "application/json" = true ↔ h = some "application/json" := by
  cases h with
  | none => simp [check_content_type]
  | some ct =>
    simp only [check_content_type, Bool.and_eq_true, bne_iff_ne, ne_eq, beq_iff_eq,
      Option.some.injEq]
    constructor
    · exact fun hp => hp.2
    · rintro rfl
      exact ⟨by decide, rfl⟩

/-- The create handler answers 415 exactly when the header is not the JSON
media type. -/
theorem create_status_415_iff (s : Store) (req : Request) (today : String) :
    (create_accounts s req today).1.status = 415 ↔
      req.content_type ≠ some "application/json" := by
  rw [ne_eq, ← check_json_iff, Bool.not_eq_true]
  cases hc : check_content_type req.content_type "application/json"
  · simp [create_accounts, hc, unsupported_media_type]
  · simp only [create_accounts, hc, if_true]
    cases hd : Account.deserialize today req.body <;> simp [bad_request]

/-- The list handler always answers 200 with the serialization of every
stored record. -/
theorem list_all_eq (s : Store) :
    list_all_accounts s
      = { status := 200, body := .arr (s.records.map Account.serialize),
          location := none } := by
  unfold list_all_accounts Store.all
  cases s.records with
  | nil => simp
  | cons a l => simp [List.isEmpty]

/-- A valid creation request is accepted: 201, placeholder Location header,
a serialized entity as body, and exactly one more stored record. -/
theorem create_valid_step (s : Store) (r : Request) (today : String)
    (h : valid_create r = true) :
    (create_accounts s r today).1.status = 201 ∧
    (create_accounts s r today).1.location = some "/" ∧
    (∃ a : Account, (create_accounts s r today).1.body = Body.obj a.serialize) ∧
    ((create_accounts s r today).2).records.length = s.records.length + 1 := by
  have h4 : ((r.content_type = some "application/json" ∧ r.body.name.isSome = true) ∧
      r.body.email.isSome = true) ∧ r.body.address.isSome = true := by
    simpa [valid_create, Bool.and_eq_true, beq_iff_eq] using h
  obtain ⟨⟨⟨hct, hn⟩, he⟩, ha⟩ := h4
  obtain ⟨n, hn2⟩ := Option.isSome_iff_exists.mp hn
  obtain ⟨e, he2⟩ := Option.isSome_iff_exists.mp he
  obtain ⟨ad, ha2⟩ := Option.isSome_iff_exists.mp ha
  have hcheck : check_content_type r.content_type "application/json" = true :=
    (check_json_iff _).mpr hct
  have hdes : Account.deserialize today r.body
      = .ok { id := none, name := n, email := e, address := ad,
              phone_number := r.body.phone_number,
              date_joined := r.body.date_joined.getD today } := by
    simp [Account.deserialize, hn2, he2, ha2]
  have hmain : create_accounts s r today
      = ({ status := 201,
           body := .obj (Account.create s
             { id := none, name := n, email := e, address := ad,
               phone_number := r.body.phone_number,
               date_joined := r.body.date_joined.getD today }).1.serialize,
           location := some "/" },
         (Account.create s
             { id := none, name := n, email := e, address := ad,
               phone_number := r.body.phone_number,
               date_joined := r.body.date_joined.getD today }).2) := by
    simp [create_accounts, hcheck, hdes]
  rw [hmain]
  refine ⟨rfl, rfl, ⟨_, rfl⟩, ?_⟩
  simp [Account.create]

/-- Posting a list of valid creation requests adds exactly one record each. -/
theorem post_many_length (today : String) (reqs : List Request) :
    ∀ s : Store, (∀ r ∈ reqs, valid_create r = true) →
      (post_many today reqs s).records.length = s.records.length + reqs.length := by
  induction reqs with
  | nil =>
    intro s _
    simp [post_many]
  | cons r rs ih =>
    intro s h
    have h1 := h r (List.mem_cons_self r rs)
    have h2 : ∀ x ∈ rs, valid_create x = true :=
      fun x hx => h x (List.mem_cons_of_mem r hx)
    have step := (create_valid_step s r today h1).2.2.2
    have hfold : post_many today (r :: rs) s
        = post_many today rs ((create_accounts s r today).2) := rfl
    rw [hfold, ih ((create_accounts s r today).2) h2, step]
    simp [List.length_cons]
    omega

/-- After deleting the record found at an id, that id is no longer found. -/
theorem find_delete_self (s : Store) (i : Nat) (a : Account)
    (h : s.find i = some a) : (Account.delete s a).find i = none := by
  have h2 : s.records.find? (fun x => x.id == some i) = some a := h
  have hpa := List.find?_some h2
  have ha : a.id = some i := by simpa using hpa
  show (s.records.filter (fun r => !(r.id == a.id))).find?
      (fun x => x.id == some i) = none
  rw [List.find?_eq_none]
  intro x hx hxi
  have hxid : x.id = some i := by simpa using hxi
  have hmem := (List.mem_filter.mp hx).2
  rw [hxid, ha] at hmem
  simp at hmem

/-! The claim theorems. -/

/-- C1: `update_account` on an existing id is claimed to replace all stored
fields from the body, take `id` from the URL path, and answer 200 with the new
values. Evaluating the handler at the failing input shows otherwise: the body
is deserialized into a fresh Account whose `id` is never assigned from the
path, so the 200 response carries the fresh entity with `id = none`, and the
durable store still holds the old record unchanged. -/
theorem update_discards_path_id_and_store :
    (update_account store_ann 1 req_bob "2020-01-01").1
      = { status := 200, body := Body.obj (Account.serialize fresh_bob),
          location := none } ∧
    fresh_bob.id = none ∧
    (update_account store_ann 1 req_bob "2020-01-01").2 = store_ann ∧
    Store.find store_ann 1 = some acc_ann ∧
    acc_ann.name = "Ann" ∧
    payload_bob.name = some "Bob" := by
  refine ⟨by decide, rfl, by decide, by decide, rfl, rfl⟩

/-- C2 (counterexample): the Location header of a successful creation is the
placeholder `/`, which is not the created resource's URL `/accounts/1`, so the
header does not point at the created resource. -/
theorem create_location_is_placeholder_root :
    (create_accounts Store.empty req_bob "2020-01-01").1.status = 201 ∧
    (create_accounts Store.empty req_bob "2020-01-01").1.location = some "/" ∧
    (create_accounts Store.empty req_bob "2020-01-01").2.records.map Account.id
      = [some 1] ∧
    "/" ≠ resource_url 1 := by
  refine ⟨rfl, rfl, by decide, by decide⟩

/-- C2 (amended): for every valid creation payload, POST `/accounts` answers
201 Created with the serialized entity as body and a `Location` response
header set — to the placeholder path `/`, not the created resource's URL. -/
theorem create_created_with_location (s : Store) (req : Request) (today : String)
    (h : valid_create req = true) :
    (create_accounts s req today).1.status = 201 ∧
    (∃ a : Account, (create_accounts s req today).1.body = Body.obj a.serialize) ∧
    (create_accounts s req today).1.location = some "/" := by
  obtain ⟨h1, h2, h3, _⟩ := create_valid_step s req today h
  exact ⟨h1, h3, h2⟩

/-- Witness for C2's amended theorem at the concrete request `req_bob`. -/
theorem create_created_with_location_witness :
    (create_accounts Store.empty req_bob "2020-01-01").1.status = 201 ∧
    (∃ a : Account,
      (create_accounts Store.empty req_bob "2020-01-01").1.body = Body.obj a.serialize) ∧
    (create_accounts Store.empty req_bob "2020-01-01").1.location = some "/" :=
  create_created_with_location Store.empty req_bob "2020-01-01" (by decide)

/-- C3: POST `/accounts` is rejected with 415 exactly when the Content-Type
header is absent or differs from `application/json` — whatever the body is —
and a 415 rejection returns the 415 error response and leaves the store
unchanged. -/
theorem create_rejected_unless_json_header (s : Store) (req : Request) (today : String) :
    ((create_accounts s req today).1.status = 415 ↔
      req.content_type ≠ some "application/json") ∧
    ((create_accounts s req today).1.status = 415 →
      create_accounts s req today = (unsupported_media_type "application/json", s)) := by
  refine ⟨create_status_415_iff s req today, ?_⟩
  intro h415
  have hct : req.content_type ≠ some "application/json" :=
    (create_status_415_iff s req today).mp h415
  have hc : check_content_type req.content_type "application/json" = false := by
    rw [← Bool.not_eq_true, check_json_iff]
    exact hct
  simp [create_accounts, hc]

/-- Witness for C3 at a request carrying an HTML media type. -/
theorem create_rejected_unless_json_header_witness :
    create_accounts store_ann { content_type := some "text/html", body := payload_bob }
        "2020-01-01"
      = (unsupported_media_type "application/json", store_ann) :=
  (create_rejected_unless_json_header store_ann
      { content_type := some "text/html", body := payload_bob } "2020-01-01").2 (by decide)

/-- C4: the JSON content-type check gates Create but not Update: the update
handler's outcome is identical under any Content-Type header, while the create
handler answers 415 exactly on a non-JSON header. -/
theorem content_type_check_gates_create_not_update
    (s : Store) (i : Nat) (p : Payload) (today : String) (ct : Option String) :
    update_account s i { content_type := ct, body := p } today
      = update_account s i { content_type := some "application/json", body := p } today ∧
    ((create_accounts s { content_type := ct, body := p } today).1.status = 415 ↔
      ct ≠ some "application/json") :=
  ⟨rfl, create_status_415_iff s _ today⟩

/-- C5: PUT `/accounts/{id}` on an id with no stored record answers the 404
not-found response and returns the store unchanged, whatever the request body
and header are — the handler aborts before deserialization or persistence. -/
theorem update_nonexistent_not_found (s : Store) (i : Nat) (req : Request) (today : String)
    (h : s.find i = none) :
    update_account s i req today = (not_found i, s) := by
  unfold update_account
  rw [h]

/-- Witness for C5: updating absent id 2 in the one-account store. -/
theorem update_nonexistent_not_found_witness :
    update_account store_ann 2 req_bob "2020-01-01" = (not_found 2, store_ann) :=
  update_nonexistent_not_found store_ann 2 req_bob "2020-01-01" (by decide)

/-- C6: DELETE on an existing id answers 204 with an empty body and a
subsequent GET of that id answers the 404 not-found response; DELETE on a
nonexistent id answers 404 and leaves the store unchanged. -/
theorem delete_then_read_not_found (s : Store) (i : Nat) :
    (∀ a : Account, s.find i = some a →
      delete_account s i
        = ({ status := 204, body := .text "", location := none }, Account.delete s a) ∧
      read_an_account (Account.delete s a) i = not_found i) ∧
    (s.find i = none → delete_account s i = (not_found i, s)) := by
  constructor
  · intro a ha
    constructor
    · unfold delete_account
      rw [ha]
    · unfold read_an_account
      rw [find_delete_self s i a ha]
  · intro h
    unfold delete_account
    rw [h]

/-- Witness for C6: deleting id 1 (present) and id 2 (absent) in the
one-account store. -/
theorem delete_then_read_not_found_witness :
    (delete_account store_ann 1
        = ({ status := 204, body := .text "", location := none },
           Account.delete store_ann acc_ann) ∧
      read_an_account (Account.delete store_ann acc_ann) 1 = not_found 1) ∧
    delete_account store_ann 2 = (not_found 2, store_ann) :=
  ⟨(delete_then_read_not_found store_ann 1).1 acc_ann (by decide),
   (delete_then_read_not_found store_ann 2).2 (by decide)⟩

/-- C7: POST `/accounts` with the JSON content type but a body missing `name`,
`email` or `address` answers 400 and leaves the store unchanged (no account is
created). -/
theorem create_missing_required_field (s : Store) (p : Payload) (today : String)
    (h : p.name = none ∨ p.email = none ∨ p.address = none) :
    (create_accounts s { content_type := some "application/json", body := p }
        today).1.status = 400 ∧
    (create_accounts s { content_type := some "application/json", body := p }
        today).2 = s := by
  rcases h with h | h | h <;>
    cases hn : p.name <;> cases he : p.email <;> cases ha : p.address <;>
      simp_all [create_accounts, check_content_type, Account.deserialize, bad_request]

/-- Witness for C7: a body missing `email`. -/
theorem create_missing_required_field_witness :
    (create_accounts Store.empty
        { content_type := some "application/json", body := payload_missing_email }
        "2020-01-01").1.status = 400 ∧
    (create_accounts Store.empty
        { content_type := some "application/json", body := payload_missing_email }
        "2020-01-01").2 = Store.empty :=
  create_missing_required_field Store.empty payload_missing_email "2020-01-01"
    (Or.inr (Or.inl rfl))

/-- C8: after posting N valid creation requests starting from the empty store,
GET `/accounts` answers 200 with the JSON array of the serialized stored
records, and that array has exactly N entries; for N = 0 this is 200 with the
empty array. -/
theorem list_returns_all_created (reqs : List Request) (today : String)
    (h : ∀ r ∈ reqs, valid_create r = true) :
    list_all_accounts (post_many today reqs Store.empty)
      = { status := 200,
          body := Body.arr
            ((post_many today reqs Store.empty).records.map Account.serialize),
          location := none } ∧
    ((post_many today reqs Store.empty).records.map Account.serialize).length
      = reqs.length := by
  refine ⟨list_all_eq _, ?_⟩
  rw [List.length_map]
  simpa [Store.empty] using post_many_length today reqs Store.empty h

/-- Witness for C8 with two concrete valid creation requests. -/
theorem list_returns_all_created_witness :
    list_all_accounts (post_many "2020-01-01" [req_bob, req_bob] Store.empty)
      = { status := 200,
          body := Body.arr
            ((post_many "2020-01-01" [req_bob, req_bob] Store.empty).records.map
              Account.serialize),
          location := none } ∧
    ((post_many "2020-01-01" [req_bob, req_bob] Store.empty).records.map
        Account.serialize).length = 2 :=
  list_returns_all_created [req_bob, req_bob] "2020-01-01" (by decide)

/-- C9: for every payload that deserializes into a valid entity, deserializing
the serialization of the created entity reproduces `name`, `email`, `address`
and `phone_number` unchanged. -/
theorem create_serialize_roundtrip (s : Store) (p : Payload) (today : String) (a : Account)
    (_h : Account.deserialize today p = Except.ok a) :
    ∃ a2 : Account,
      Account.deserialize today (Account.serialize (Account.create s a).1)
        = Except.ok a2 ∧
      a2.name = a.name ∧ a2.email = a.email ∧ a2.address = a.address ∧
      a2.phone_number = a.phone_number :=
  ⟨_, rfl, rfl, rfl, rfl, rfl⟩

/-- Witness for C9 at the concrete payload `payload_bob`. -/
theorem create_serialize_roundtrip_witness :
    ∃ a2 : Account,
      Account.deserialize "2020-01-01"
          (Account.serialize (Account.create Store.empty fresh_bob).1)
        = Except.ok a2 ∧
      a2.name = fresh_bob.name ∧ a2.email = fresh_bob.email ∧
      a2.address = fresh_bob.address ∧ a2.phone_number = fresh_bob.phone_number :=
  create_serialize_roundtrip Store.empty payload_bob "2020-01-01" fresh_bob rfl

/-- C10: `check_content_type` accepts exactly the header that is
character-for-character `application/json`: a parameterized variant, a case
variant, an empty header and an absent header are all rejected. -/
theorem content_type_check_exact_match (h : Option String) :
    (check_content_type h "application/json" = true ↔ h = some "application/json") ∧
    check_content_type (some "application/json; charset=utf-8") "application/json"
      = false ∧
    check_content_type (some "Application/JSON") "application/json" = false ∧
    check_content_type (some "") "application/json" = false ∧
    check_content_type none "application/json" = false :=
  ⟨check_json_iff h, by decide, by decide, by decide, rfl⟩

end AccountService
